import Mathlib

/-! Shallow embedding of the Open-Forum-API authorization / lifecycle /
visibility core (src/app): the enums, ORM models, request handlers of
app/routers/{walks,feedback,comments}.py and the Pydantic output schemas
of app/schemas.py, together with theorems settling the frozen claims
about archived-state handling, ownership rules and name derivation.
-/

namespace OpenForum

/-- app/enums.py: UserRole. -/
inductive UserRole where
  | user
  | manager
  | executive
  | developer
deriving DecidableEq, Repr

/-- app/enums.py: Region. -/
inductive Region where
  | east | west | north | south
deriving DecidableEq, Repr

/-- app/enums.py: Site. -/
inductive Site where
  | new_york | minneapolis | dallas | seattle
deriving DecidableEq, Repr

/-- app/enums.py: WalkStatus. -/
inductive WalkStatus where
  | created | in_progress | completed
deriving DecidableEq, Repr

/-- app/enums.py: FeedbackStatus. -/
inductive FeedbackStatus where
  | created | assigned | in_progress | successful | unsuccessful
deriving DecidableEq, Repr

/-- app/enums.py: TagType. -/
inductive TagType where
  | globalTag | regional | site_specific | impactful | profile_specific
deriving DecidableEq, Repr

/-- app/models.py: User row (password hash and back-references omitted;
they are never read by the handlers under verification). -/
structure User where
  id : Nat
  username : String
  email : String
  full_name : Option String
  disabled : Bool
  role : UserRole
  region : Region
  site : Site
deriving DecidableEq, Repr

/-- app/models.py: Walk row. Datetimes are modelled as Nat timestamps. -/
structure Walk where
  id : Nat
  region : Region
  site : Site
  creation_date : Nat
  walk_date : Nat
  whiteboard : Option String
  status : WalkStatus
  creator_id : Nat
  owner_id : Nat
  is_archived : Bool
deriving DecidableEq, Repr

/-- app/models.py: Tag row. -/
structure Tag where
  id : Nat
  name : String
  type : Option TagType
deriving DecidableEq, Repr

/-- app/models.py: Feedback row. The feedback_tags association table is
carried as the list of associated tag ids. -/
structure Feedback where
  id : Nat
  creation_date : Nat
  title : String
  description : String
  status : FeedbackStatus
  votes : Int
  follow_up_note : Option String
  resolution_note : Option String
  walk_id : Nat
  creator_id : Nat
  owner_id : Option Nat
  tag_ids : List Nat
  is_archived : Bool
  is_anonymous : Bool
deriving DecidableEq, Repr

/-- app/models.py: Comment row. -/
structure Comment where
  id : Nat
  creation_date : Nat
  text : String
  feedback_id : Nat
  author_id : Nat
  updated_at : Option Nat
deriving DecidableEq, Repr

/-- The relational store the handlers query and commit to. -/
structure DB where
  users : List User
  walks : List Walk
  feedbacks : List Feedback
  comments : List Comment
  tags : List Tag
deriving DecidableEq, Repr

/-- db.query(User).filter(User.id == uid).first() -/
def DB.findUser (db : DB) (uid : Nat) : Option User :=
  db.users.find? (fun u => u.id == uid)

/-- db.query(Walk).filter(Walk.id == wid).first() -/
def DB.findWalk (db : DB) (wid : Nat) : Option Walk :=
  db.walks.find? (fun w => w.id == wid)

/-- db.query(Feedback).filter(Feedback.id == fid).first() -/
def DB.findFeedback (db : DB) (fid : Nat) : Option Feedback :=
  db.feedbacks.find? (fun f => f.id == fid)

/-- db.query(Comment).filter(Comment.id == cid).first() -/
def DB.findComment (db : DB) (cid : Nat) : Option Comment :=
  db.comments.find? (fun c => c.id == cid)

/-- Replace the walk row with the same id (the session commit of an
in-place mutation of a fetched Walk). -/
def DB.commitWalk (db : DB) (w' : Walk) : DB :=
  { db with walks := db.walks.map (fun w => if w.id == w'.id then w' else w) }

/-- Replace the feedback row with the same id. -/
def DB.commitFeedback (db : DB) (f' : Feedback) : DB :=
  { db with feedbacks := db.feedbacks.map (fun f => if f.id == f'.id then f' else f) }

/-- Replace the comment row with the same id. -/
def DB.commitComment (db : DB) (c' : Comment) : DB :=
  { db with comments := db.comments.map (fun c => if c.id == c'.id then c' else c) }

/-- The faults the handlers raise (HTTPException status classes), plus
internalError for attribute access on an absent relation, which in the
source would escape as a server error. -/
inductive ApiError where
  | notFound (detail : String)
  | forbidden (detail : String)
  | badRequest (detail : String)
  | internalError
deriving DecidableEq, Repr

/-- app/schemas.py: StatusResponse. -/
structure StatusResponse where
  status : String
  message : Option String
deriving DecidableEq, Repr

/-- app/auth.py get_current_active_user: reject disabled principals with
a 400 "Inactive user" before any handler runs. -/
def get_current_active_user (u : User) : Except ApiError User :=
  if u.disabled then .error (.badRequest "Inactive user") else .ok u

/-- app/schemas.py: WalkUpdate. A field holds some v when the request
set it (pydantic model_dump with exclude_unset drops the unset ones). -/
structure WalkUpdate where
  walk_date : Option Nat := none
  whiteboard : Option String := none
  status : Option WalkStatus := none
  owner_id : Option Nat := none
deriving DecidableEq, Repr

/-- The setattr loop of update_walk: apply each provided field. -/
def applyWalkUpdate (w : Walk) (upd : WalkUpdate) : Walk :=
  let w := match upd.walk_date with
    | some d => { w with walk_date := d }
    | none => w
  let w := match upd.whiteboard with
    | some s => { w with whiteboard := some s }
    | none => w
  let w := match upd.status with
    | some st => { w with status := st }
    | none => w
  match upd.owner_id with
  | some oid => { w with owner_id := oid }
  | none => w

/-- app/routers/walks.py update_walk. -/
def update_walk (db : DB) (current_user : User) (walk_id : Nat)
    (upd : WalkUpdate) : Except ApiError (Walk × DB) :=
  match db.findWalk walk_id with
  | none => .error (.notFound "Walk not found")
  | some db_walk =>
    let is_admin := current_user.role == UserRole.developer
    let is_creator_or_owner :=
      db_walk.creator_id == current_user.id || db_walk.owner_id == current_user.id
    if !(is_creator_or_owner || is_admin) then
      .error (.forbidden "Not authorized to update this walk")
    else
      match upd.owner_id with
      | some new_owner_id =>
        if (db.findUser new_owner_id).isNone then
          .error (.badRequest
            s!"User with owner_id {new_owner_id} does not exist.")
        else
          let w' := applyWalkUpdate db_walk upd
          .ok (w', db.commitWalk w')
      | none =>
        let w' := applyWalkUpdate db_walk upd
        .ok (w', db.commitWalk w')

/-- app/routers/walks.py archive_walk. -/
def archive_walk (db : DB) (current_user : User) (walk_id : Nat) :
    Except ApiError (StatusResponse × DB) :=
  match db.findWalk walk_id with
  | none => .error (.notFound "Walk not found")
  | some walk =>
    let is_admin := current_user.role == UserRole.developer
    let is_creator_or_owner :=
      walk.creator_id == current_user.id || walk.owner_id == current_user.id
    if !(is_creator_or_owner || is_admin) then
      .error (.forbidden "Not authorized to archive this walk")
    else if walk.is_archived then
      .ok ({ status := "success", message := some "Walk already archived" }, db)
    else
      .ok ({ status := "success", message := some "Walk archived successfully" },
        db.commitWalk { walk with is_archived := true })

/-- app/schemas.py: FeedbackCreate (FeedbackBase fields plus walk_id,
owner_id, tags_id). -/
structure FeedbackCreate where
  title : String
  description : String
  status : FeedbackStatus := FeedbackStatus.created
  votes : Int := 0
  follow_up_note : Option String := none
  resolution_note : Option String := none
  is_anonymous : Bool := false
  walk_id : Nat
  owner_id : Option Nat := none
  tags_id : List Nat := []
deriving DecidableEq, Repr

/-- app/routers/feedback.py create_new_feedback. The fresh row id is the
autoincrement successor of the largest existing feedback id. -/
def create_new_feedback (db : DB) (current_user : User)
    (feedback_data : FeedbackCreate) (now : Nat) :
    Except ApiError (Feedback × DB) :=
  match db.walks.find?
      (fun w => w.id == feedback_data.walk_id && w.is_archived == false) with
  | none =>
    let wid := feedback_data.walk_id
    .error (.notFound s!"Active walk with ID {wid} not found.")
  | some _ =>
    let new_id := (db.feedbacks.map (fun f => f.id)).foldr max 0 + 1
    let new_feedback : Feedback :=
      { id := new_id
        creation_date := now
        title := feedback_data.title
        description := feedback_data.description
        status := feedback_data.status
        votes := feedback_data.votes
        follow_up_note := feedback_data.follow_up_note
        resolution_note := feedback_data.resolution_note
        walk_id := feedback_data.walk_id
        creator_id := current_user.id
        owner_id := feedback_data.owner_id
        tag_ids := []
        is_archived := false
        is_anonymous := feedback_data.is_anonymous }
    let tag_ids := feedback_data.tags_id
    if tag_ids.isEmpty then
      .ok (new_feedback, { db with feedbacks := db.feedbacks ++ [new_feedback] })
    else
      let tags := db.tags.filter (fun t => tag_ids.contains t.id)
      if tags.length != tag_ids.dedup.length then
        .error (.badRequest "One or more provided tag IDs are invalid.")
      else
        let nf := { new_feedback with tag_ids := tags.map (fun t => t.id) }
        .ok (nf, { db with feedbacks := db.feedbacks ++ [nf] })

/-- app/routers/feedback.py get_specific_feedback. -/
def get_specific_feedback (db : DB) (current_user : User)
    (feedback_id : Nat) : Except ApiError Feedback :=
  match db.feedbacks.find?
      (fun f => f.id == feedback_id && f.is_archived == false) with
  | none => .error (.notFound s!"Feedback with ID {feedback_id} not found")
  | some feedback => .ok feedback

/-- app/routers/feedback.py archive_feedback. -/
def archive_feedback (db : DB) (current_user : User) (feedback_id : Nat) :
    Except ApiError (StatusResponse × DB) :=
  match db.findFeedback feedback_id with
  | none => .error (.notFound "Feedback not found")
  | some feedback =>
    let is_admin := current_user.role == UserRole.developer
    let is_creator_or_owner :=
      feedback.creator_id == current_user.id
        || feedback.owner_id == some current_user.id
    if !(is_creator_or_owner || is_admin) then
      .error (.forbidden "Not authorized to archive this feedback")
    else if feedback.is_archived then
      .ok ({ status := "success", message := some "Feedback already archived" }, db)
    else
      .ok ({ status := "success", message := some "Feedback archived successfully" },
        db.commitFeedback { feedback with is_archived := true })

/-- app/schemas.py: FeedbackUpdate. A field holds some v when the
request set it. tag_ids is accepted by the schema but update_feedback
stores it with setattr under a name that is not a mapped column, so it
never reaches the feedback_tags association. -/
structure FeedbackUpdate where
  title : Option String := none
  description : Option String := none
  status : Option FeedbackStatus := none
  owner_id : Option Nat := none
  follow_up_note : Option String := none
  resolution_note : Option String := none
  tag_ids : Option (List Nat) := none
deriving DecidableEq, Repr

/-- The setattr loop of update_feedback. Setting tag_ids creates an
unmapped transient attribute on the row object and leaves the tags
relation untouched, so it has no effect on the persisted row. -/
def applyFeedbackUpdate (f : Feedback) (upd : FeedbackUpdate) : Feedback :=
  let f := match upd.title with
    | some t => { f with title := t }
    | none => f
  let f := match upd.description with
    | some d => { f with description := d }
    | none => f
  let f := match upd.status with
    | some st => { f with status := st }
    | none => f
  let f := match upd.owner_id with
    | some oid => { f with owner_id := some oid }
    | none => f
  let f := match upd.follow_up_note with
    | some n => { f with follow_up_note := some n }
    | none => f
  match upd.resolution_note with
  | some n => { f with resolution_note := some n }
  | none => f

/-- app/routers/feedback.py update_feedback. -/
def update_feedback (db : DB) (current_user : User) (feedback_id : Nat)
    (upd : FeedbackUpdate) : Except ApiError (Feedback × DB) :=
  match db.findFeedback feedback_id with
  | none => .error (.notFound "Feedback not found")
  | some db_feedback =>
    if db_feedback.is_archived then
      .error (.badRequest "Cannot modify archived feedback.")
    else
      let is_admin := current_user.role == UserRole.manager
        || current_user.role == UserRole.executive
        || current_user.role == UserRole.developer
      let is_owner := db_feedback.owner_id == some current_user.id
      if !(is_owner || is_admin) then
        .error (.forbidden "Not authorized to update this feedback")
      else
        match upd.owner_id with
        | some new_owner_id =>
          if (db.findUser new_owner_id).isNone then
            .error (.badRequest
              s!"User with owner_id {new_owner_id} does not exist.")
          else
            let f' := applyFeedbackUpdate db_feedback upd
            .ok (f', db.commitFeedback f')
        | none =>
          let f' := applyFeedbackUpdate db_feedback upd
          .ok (f', db.commitFeedback f')

/-- app/routers/comments.py create_new_comment. -/
def create_new_comment (db : DB) (current_user : User) (feedback_id : Nat)
    (text : String) (now : Nat) : Except ApiError (Comment × DB) :=
  match db.feedbacks.find?
      (fun f => f.id == feedback_id && f.is_archived == false) with
  | none => .error (.notFound s!"Active feedback with ID {feedback_id} not found.")
  | some _ =>
    let new_id := (db.comments.map (fun c => c.id)).foldr max 0 + 1
    let new_comment : Comment :=
      { id := new_id
        creation_date := now
        text := text
        feedback_id := feedback_id
        author_id := current_user.id
        updated_at := none }
    .ok (new_comment, { db with comments := db.comments ++ [new_comment] })

/-- app/routers/comments.py update_comment. The db_comment.feedback
relation always resolves under the foreign-key constraint; an absent
parent would crash attribute access, modelled as internalError. -/
def update_comment (db : DB) (current_user : User) (comment_id : Nat)
    (text : String) (now : Nat) : Except ApiError (Comment × DB) :=
  match db.findComment comment_id with
  | none => .error (.notFound "Comment not found")
  | some db_comment =>
    if db_comment.author_id != current_user.id then
      .error (.forbidden "Not authorized to update this comment")
    else
      match db.findFeedback db_comment.feedback_id with
      | none => .error .internalError
      | some parent =>
        if parent.is_archived then
          .error (.badRequest "Cannot modify comments on an archived feedback item")
        else
          let c' := { db_comment with text := text, updated_at := some now }
          .ok (c', db.commitComment c')

/-- app/routers/comments.py delete_comment. -/
def delete_comment (db : DB) (current_user : User) (comment_id : Nat) :
    Except ApiError DB :=
  match db.findComment comment_id with
  | none => .error (.notFound "Comment not found")
  | some db_comment =>
    let is_author := db_comment.author_id == current_user.id
    let is_developer := current_user.role == UserRole.developer
    if !(is_author || is_developer) then
      .error (.forbidden "Not authorized to delete this comment")
    else
      .ok { db with comments := db.comments.filter (fun c => c.id != comment_id) }

/-- Python truthiness of a string: nonempty. -/
def strTruthy (s : String) : Bool := s != ""

/-- Python truthiness of an optional string: present and nonempty. -/
def optStrTruthy : Option String → Bool
  | none => false
  | some s => strTruthy s

/-- app/schemas.py: the Feedback output schema, restricted to the fields
its validator and computed name fields read or write (is_anonymous and
the creator and owner relations; creator and owner are declared with
exclude=True so the raw relation objects never serialize). -/
structure FeedbackView where
  id : Nat
  walk_id : Nat
  creator_id : Nat
  owner_id : Option Nat
  is_anonymous : Bool
  creator : Option User
  owner : Option User
deriving DecidableEq, Repr

/-- app/schemas.py Feedback.mask_anonymous_creator: if is_anonymous,
set creator to None so it is not included in the response. -/
def FeedbackView.mask_anonymous_creator (f : FeedbackView) : FeedbackView :=
  if f.is_anonymous then { f with creator := none } else f

/-- app/schemas.py Feedback.creator_name. -/
def FeedbackView.creator_name (f : FeedbackView) : String :=
  if f.is_anonymous then "Anonymous"
  else match f.creator with
    | some c =>
      if optStrTruthy c.full_name then c.full_name.getD ""
      else if strTruthy c.username then c.username
      else "Unknown"
    | none => "Unknown"

/-- app/schemas.py Feedback.owner_name (returns str or None). -/
def FeedbackView.owner_name (f : FeedbackView) : Option String :=
  match f.owner with
  | some o =>
    if optStrTruthy o.full_name then o.full_name
    else if strTruthy o.username then some o.username
    else none
  | none => none

/-- app/schemas.py Walk.owner_name (returns str, defaulting to
"Unknown"). Restricted to the owner relation it reads. -/
def walkOwnerName (owner : Option User) : String :=
  match owner with
  | some o =>
    if optStrTruthy o.full_name then o.full_name.getD ""
    else if strTruthy o.username then o.username
    else "Unknown"
  | none => "Unknown"

/-- Rendering a Feedback row for a response: model validation runs the
mask validator, then the computed name fields are evaluated on the
validated model. The serializer never consults the viewer; the viewer
argument records that independence. -/
def render (f : FeedbackView) (viewer : User) : FeedbackView :=
  f.mask_anonymous_creator

/-! Concrete fixtures used by witnesses and counterexamples. -/

/-- A plain active user, id 1. -/
def alice : User :=
  { id := 1, username := "alice", email := "alice@example.com"
    full_name := some "Alice Archer", disabled := false
    role := UserRole.user, region := Region.east, site := Site.new_york }

/-- A plain active user, id 2, unrelated to alice's entities. -/
def bob : User :=
  { id := 2, username := "bob", email := "bob@example.com"
    full_name := none, disabled := false
    role := UserRole.user, region := Region.west, site := Site.seattle }

/-- An active developer, id 3. -/
def devUser : User :=
  { id := 3, username := "dev", email := "dev@example.com"
    full_name := some "Dev Eloper", disabled := false
    role := UserRole.developer, region := Region.north, site := Site.minneapolis }

/-- An archived walk created and owned by alice. -/
def archivedWalk : Walk :=
  { id := 1, region := Region.east, site := Site.new_york
    creation_date := 0, walk_date := 10, whiteboard := none
    status := WalkStatus.created, creator_id := 1, owner_id := 1
    is_archived := true }

/-- A live (non-archived) walk created and owned by alice. -/
def liveWalk : Walk :=
  { archivedWalk with id := 2, is_archived := false }

/-- An archived feedback on liveWalk, created and owned by alice. -/
def archivedFeedback : Feedback :=
  { id := 1, creation_date := 0, title := "t", description := "d"
    status := FeedbackStatus.created, votes := 0
    follow_up_note := none, resolution_note := none
    walk_id := 2, creator_id := 1, owner_id := some 1, tag_ids := []
    is_archived := true, is_anonymous := false }

/-- A live feedback on liveWalk, created by bob and owned by alice. -/
def liveFeedback : Feedback :=
  { archivedFeedback with id := 2, creator_id := 2, is_archived := false }

/-- A comment by alice on archivedFeedback. -/
def aliceComment : Comment :=
  { id := 1, creation_date := 1, text := "original", feedback_id := 1
    author_id := 1, updated_at := none }

/-- The store holding the fixtures above. -/
def fixtureDB : DB :=
  { users := [alice, bob, devUser]
    walks := [archivedWalk, liveWalk]
    feedbacks := [archivedFeedback, liveFeedback]
    comments := [aliceComment]
    tags := [] }

/-! Claims. -/

/-- C1 counterexample: update_walk performs no archived-state check.
The archived walk with id 1 is updated by its creator/owner alice and
the whiteboard field is mutated: the operation succeeds instead of
failing with the archived-state Conflict fault. -/
theorem C1_counterexample :
    archivedWalk.is_archived = true ∧
    update_walk fixtureDB alice 1 { whiteboard := some "edited" } =
      .ok ({ archivedWalk with whiteboard := some "edited" },
        { fixtureDB with
            walks := [{ archivedWalk with whiteboard := some "edited" }, liveWalk] }) := by
  constructor
  · rfl
  · rfl

/-- C1 amended: Walk Update has no archived-state guard at all. For an
archived Walk, Update by an authorized principal (creator, owner or
Developer) whose owner_id reference (if any) resolves succeeds and
mutates the requested fields; the archived flag never produces a
Conflict fault on Walk Update. -/
theorem C1_amended (db : DB) (cu : User) (wid : Nat) (upd : WalkUpdate)
    (w : Walk) (hfind : db.findWalk wid = some w)
    (harch : w.is_archived = true)
    (hauth : w.creator_id = cu.id ∨ w.owner_id = cu.id ∨
      cu.role = UserRole.developer)
    (href : ∀ oid, upd.owner_id = some oid → (db.findUser oid).isSome = true) :
    update_walk db cu wid upd =
      .ok (applyWalkUpdate w upd, db.commitWalk (applyWalkUpdate w upd)) := by
  unfold update_walk
  rw [hfind]
  simp only
  have hguard : (w.creator_id == cu.id || w.owner_id == cu.id ||
      cu.role == UserRole.developer) = true := by
    rcases hauth with h | h | h <;> simp [h]
  simp only [hguard, Bool.not_true, Bool.false_eq_true, if_false]
  cases hoid : upd.owner_id with
  | none => simp
  | some oid =>
    have hsome := href oid hoid
    simp [Option.isNone_iff_eq_none, Option.isSome_iff_ne_none.mp hsome]

/-- C1 amended witness: alice updates her archived walk concretely. -/
theorem C1_amended_witness :
    update_walk fixtureDB alice 1 { whiteboard := some "w2" } =
      .ok (applyWalkUpdate archivedWalk { whiteboard := some "w2" },
        fixtureDB.commitWalk
          (applyWalkUpdate archivedWalk { whiteboard := some "w2" })) :=
  C1_amended fixtureDB alice 1 { whiteboard := some "w2" } archivedWalk
    (by rfl) (by rfl) (Or.inl rfl) (by intro oid h; cases h)

/-- C2: on a non-archived Feedback, Update by an authenticated active
principal passes the authorization gate (is not Forbidden) iff the
principal is the feedback's owner or holds role Manager, Executive or
Developer; in particular a principal who is only the creator, not the
owner, with role User, is denied with Forbidden. -/
theorem C2_feedback_update_authorization (db : DB) (cu : User) (fid : Nat)
    (upd : FeedbackUpdate) (f : Feedback)
    (hfind : db.findFeedback fid = some f)
    (harch : f.is_archived = false)
    (hactive : cu.disabled = false) :
    (update_feedback db cu fid upd =
        .error (.forbidden "Not authorized to update this feedback")
      ↔ ¬(f.owner_id = some cu.id ∨ cu.role = UserRole.manager ∨
          cu.role = UserRole.executive ∨ cu.role = UserRole.developer))
    ∧ (cu.id = f.creator_id → f.owner_id ≠ some cu.id →
        cu.role = UserRole.user →
        update_feedback db cu fid upd =
          .error (.forbidden "Not authorized to update this feedback")) := by
  unfold update_feedback
  rw [hfind]
  simp only [harch, Bool.false_eq_true, if_false]
  by_cases hP : f.owner_id = some cu.id ∨ cu.role = UserRole.manager ∨
      cu.role = UserRole.executive ∨ cu.role = UserRole.developer
  · have hg : (f.owner_id == some cu.id ||
        (cu.role == UserRole.manager || cu.role == UserRole.executive ||
          cu.role == UserRole.developer)) = true := by
      rcases hP with h | h | h | h <;> simp [h]
    simp only [hg, Bool.not_true, Bool.false_eq_true, if_false]
    refine ⟨⟨fun hres => ?_, fun hnP => absurd hP hnP⟩, fun hc hno hrole => ?_⟩
    · cases hoid : upd.owner_id with
      | none => rw [hoid] at hres; simp at hres
      | some oid =>
        rw [hoid] at hres
        by_cases hn : (db.findUser oid).isNone = true <;> simp [hn] at hres
    · rcases hP with h | h | h | h
      · exact absurd h hno
      all_goals simp [hrole] at h
  · have hg : (f.owner_id == some cu.id ||
        (cu.role == UserRole.manager || cu.role == UserRole.executive ||
          cu.role == UserRole.developer)) = false := by
      cases hb : (f.owner_id == some cu.id ||
          (cu.role == UserRole.manager || cu.role == UserRole.executive ||
            cu.role == UserRole.developer)) with
      | false => rfl
      | true =>
        have hptype : f.owner_id = some cu.id ∨
            (cu.role = UserRole.manager ∨ cu.role = UserRole.executive) ∨
            cu.role = UserRole.developer := by simpa using hb
        exact absurd (by tauto) hP
    simp only [hg, Bool.not_false, if_true]
    exact ⟨⟨fun _ => hP, fun _ => trivial⟩, fun _ _ _ => trivial⟩

/-- C2 witness: bob is liveFeedback's creator but not its owner and has
role User, so his update is Forbidden; the iff also applies. -/
theorem C2_witness :
    update_feedback fixtureDB bob 2 { title := some "t2" } =
      .error (.forbidden "Not authorized to update this feedback") :=
  (C2_feedback_update_authorization fixtureDB bob 2 { title := some "t2" }
    liveFeedback (by rfl) (by rfl) (by rfl)).2 (by rfl) (by decide) (by rfl)

/-- C3 counterexample: update_comment runs the authorship check before
the archived-parent check. bob is not the author of aliceComment, whose
parent feedback (id 1) is archived; his update attempt fails Forbidden,
not with the archived-state fault, so the claimed precedence of the
archived rejection over the authorship check is false. -/
theorem C3_counterexample :
    archivedFeedback.is_archived = true ∧
    aliceComment.feedback_id = archivedFeedback.id ∧
    aliceComment.author_id ≠ bob.id ∧
    update_comment fixtureDB bob 1 "hijack" 9 =
      .error (.forbidden "Not authorized to update this comment") := by
  refine ⟨rfl, rfl, by decide, rfl⟩

/-- C3 amended: when a comment's parent Feedback is archived, the
authorship check runs first: a principal other than the author is denied
Forbidden, and only the author — who passes that check — receives the
archived-state rejection ("Cannot modify comments on an archived
feedback item") instead of success. -/
theorem C3_amended (db : DB) (cu : User) (cid : Nat) (txt : String)
    (now : Nat) (c : Comment) (f : Feedback)
    (hfind : db.findComment cid = some c)
    (hpar : db.findFeedback c.feedback_id = some f)
    (harch : f.is_archived = true) :
    update_comment db cu cid txt now =
      (if c.author_id = cu.id then
        .error (.badRequest "Cannot modify comments on an archived feedback item")
      else
        .error (.forbidden "Not authorized to update this comment")) := by
  unfold update_comment
  rw [hfind]
  simp only
  by_cases hauth : c.author_id = cu.id
  · simp only [hauth, if_pos]
    have hne : (cu.id != cu.id) = false := by simp
    rw [hne]
    simp only [Bool.false_eq_true, if_false]
    rw [hpar]
    simp [harch]
  · have hne : (c.author_id != cu.id) = true := by
      simp [bne_iff_ne, hauth]
    rw [hne]
    simp only [if_true, if_neg hauth]

/-- C3 amended witness: alice, the author, edits her comment on the
archived feedback and receives the archived-state rejection. -/
theorem C3_amended_witness :
    update_comment fixtureDB alice 1 "edit" 9 =
      (if aliceComment.author_id = alice.id then
        .error (.badRequest "Cannot modify comments on an archived feedback item")
      else
        .error (.forbidden "Not authorized to update this comment")) :=
  C3_amended fixtureDB alice 1 "edit" 9 aliceComment archivedFeedback
    (by rfl) (by rfl) (by rfl)

/-- Helper: when every row with the looked-up id is archived (which
covers the id being absent altogether), the active-row query of the
create/read handlers returns nothing. -/
theorem find_active_eq_none {α : Type} (rows : List α) (idOf : α → Nat)
    (archOf : α → Bool) (target : Nat)
    (h : ∀ x ∈ rows, idOf x = target → archOf x = true) :
    rows.find? (fun x => idOf x == target && archOf x == false) = none := by
  rw [List.find?_eq_none]
  intro x hx hcontra
  simp only [Bool.and_eq_true, beq_iff_eq] at hcontra
  obtain ⟨hid, hfalse⟩ := hcontra
  have := h x hx hid
  rw [this] at hfalse
  cases hfalse

/-- C4: when the looked-up entity or required parent is absent or
archived — Feedback Create against an archived/nonexistent Walk, Comment
Create against archived/nonexistent Feedback, Feedback Read by id of
archived Feedback — the operation fails NotFound (so never Forbidden),
for every principal. -/
theorem C4_not_found_precedence (db : DB) (cu : User) (fd : FeedbackCreate)
    (now fid : Nat) (txt : String)
    (hwalk : ∀ w ∈ db.walks, w.id = fd.walk_id → w.is_archived = true)
    (hfb : ∀ f ∈ db.feedbacks, f.id = fid → f.is_archived = true) :
    (∃ msg, create_new_feedback db cu fd now = .error (.notFound msg))
    ∧ (∃ msg, create_new_comment db cu fid txt now = .error (.notFound msg))
    ∧ (∃ msg, get_specific_feedback db cu fid = .error (.notFound msg)) := by
  have hw : db.walks.find?
      (fun w => w.id == fd.walk_id && w.is_archived == false) = none :=
    find_active_eq_none db.walks (fun w => w.id) (fun w => w.is_archived)
      fd.walk_id hwalk
  have hf : db.feedbacks.find?
      (fun f => f.id == fid && f.is_archived == false) = none :=
    find_active_eq_none db.feedbacks (fun f => f.id) (fun f => f.is_archived)
      fid hfb
  refine ⟨⟨toString "Active walk with ID " ++ toString fd.walk_id ++
        toString " not found.", ?_⟩,
    ⟨toString "Active feedback with ID " ++ toString fid ++
        toString " not found.", ?_⟩,
    ⟨toString "Feedback with ID " ++ toString fid ++
        toString " not found", ?_⟩⟩
  · unfold create_new_feedback
    rw [hw]
  · unfold create_new_comment
    rw [hf]
  · unfold get_specific_feedback
    rw [hf]

/-- C4 witness: a store whose only walk and only feedback are archived
rejects feedback-create, comment-create and feedback-read with NotFound
for the unrelated principal bob. -/
theorem C4_witness :
    (∃ msg, create_new_feedback
      { users := [alice, bob], walks := [archivedWalk],
        feedbacks := [archivedFeedback], comments := [], tags := [] } bob
      { title := "x", description := "y", walk_id := 1 } 7 =
        .error (.notFound msg))
    ∧ (∃ msg, create_new_comment
      { users := [alice, bob], walks := [archivedWalk],
        feedbacks := [archivedFeedback], comments := [], tags := [] } bob
      1 "hello" 7 = .error (.notFound msg))
    ∧ (∃ msg, get_specific_feedback
      { users := [alice, bob], walks := [archivedWalk],
        feedbacks := [archivedFeedback], comments := [], tags := [] } bob 1 =
        .error (.notFound msg)) :=
  C4_not_found_precedence
    { users := [alice, bob], walks := [archivedWalk],
      feedbacks := [archivedFeedback], comments := [], tags := [] }
    bob { title := "x", description := "y", walk_id := 1 } 7 1 "hello"
    (by decide) (by decide)

/-- C5: archiving an already-archived Walk or Feedback by an authorized
principal (creator, owner, or Developer) returns success with the store
unchanged (no write performed), while an unauthorized principal still
gets Forbidden — the authorization check runs before the
already-archived short-circuit. -/
theorem C5_archive_idempotent (db : DB) (cu : User) (wid fid : Nat)
    (w : Walk) (f : Feedback)
    (hw : db.findWalk wid = some w) (hwarch : w.is_archived = true)
    (hf : db.findFeedback fid = some f) (hfarch : f.is_archived = true) :
    (archive_walk db cu wid =
      if w.creator_id = cu.id ∨ w.owner_id = cu.id ∨
          cu.role = UserRole.developer then
        .ok ({ status := "success", message := some "Walk already archived" }, db)
      else
        .error (.forbidden "Not authorized to archive this walk"))
    ∧ (archive_feedback db cu fid =
      if f.creator_id = cu.id ∨ f.owner_id = some cu.id ∨
          cu.role = UserRole.developer then
        .ok ({ status := "success", message := some "Feedback already archived" }, db)
      else
        .error (.forbidden "Not authorized to archive this feedback")) := by
  constructor
  · unfold archive_walk
    rw [hw]
    simp only
    by_cases hP : w.creator_id = cu.id ∨ w.owner_id = cu.id ∨
        cu.role = UserRole.developer
    · have hg : (w.creator_id == cu.id || w.owner_id == cu.id ||
          cu.role == UserRole.developer) = true := by
        rcases hP with h | h | h <;> simp [h]
      simp only [hg, Bool.not_true, Bool.false_eq_true, if_false,
        hwarch, if_true, if_pos hP]
    · have hg : (w.creator_id == cu.id || w.owner_id == cu.id ||
          cu.role == UserRole.developer) = false := by
        cases hb : (w.creator_id == cu.id || w.owner_id == cu.id ||
            cu.role == UserRole.developer) with
        | false => rfl
        | true =>
          have hptype : (w.creator_id = cu.id ∨ w.owner_id = cu.id) ∨
              cu.role = UserRole.developer := by simpa using hb
          exact absurd (by tauto) hP
      simp only [hg, Bool.not_false, if_true, if_neg hP]
  · unfold archive_feedback
    rw [hf]
    simp only
    by_cases hP : f.creator_id = cu.id ∨ f.owner_id = some cu.id ∨
        cu.role = UserRole.developer
    · have hg : (f.creator_id == cu.id || f.owner_id == some cu.id ||
          cu.role == UserRole.developer) = true := by
        rcases hP with h | h | h <;> simp [h]
      simp only [hg, Bool.not_true, Bool.false_eq_true, if_false,
        hfarch, if_true, if_pos hP]
    · have hg : (f.creator_id == cu.id || f.owner_id == some cu.id ||
          cu.role == UserRole.developer) = false := by
        cases hb : (f.creator_id == cu.id || f.owner_id == some cu.id ||
            cu.role == UserRole.developer) with
        | false => rfl
        | true =>
          have hptype : (f.creator_id = cu.id ∨ f.owner_id = some cu.id) ∨
              cu.role = UserRole.developer := by simpa using hb
          exact absurd (by tauto) hP
      simp only [hg, Bool.not_false, if_true, if_neg hP]

/-- C5 witness: alice re-archives her archived walk and feedback (store
returned unchanged), and bob is denied on both despite them already
being archived. -/
theorem C5_witness :
    (archive_walk fixtureDB alice 1 =
      .ok ({ status := "success", message := some "Walk already archived" },
        fixtureDB))
    ∧ (archive_feedback fixtureDB bob 1 =
      .error (.forbidden "Not authorized to archive this feedback")) := by
  constructor
  · have h := (C5_archive_idempotent fixtureDB alice 1 1
      archivedWalk archivedFeedback (by rfl) (by rfl) (by rfl) (by rfl)).1
    have hc : archivedWalk.creator_id = alice.id ∨
        archivedWalk.owner_id = alice.id ∨
        alice.role = UserRole.developer := Or.inl rfl
    rwa [if_pos hc] at h
  · have h := (C5_archive_idempotent fixtureDB bob 1 1
      archivedWalk archivedFeedback (by rfl) (by rfl) (by rfl) (by rfl)).2
    have hc : ¬(archivedFeedback.creator_id = bob.id ∨
        archivedFeedback.owner_id = some bob.id ∨
        bob.role = UserRole.developer) := by decide
    rwa [if_neg hc] at h

/-- An anonymous feedback view whose creator relation is populated with
alice (its creator). -/
def anonView : FeedbackView :=
  { id := 1, walk_id := 2, creator_id := 1, owner_id := some 1
    is_anonymous := true, creator := some alice, owner := some alice }

/-- A non-anonymous feedback view with no owner relation. -/
def ownerlessView : FeedbackView :=
  { id := 2, walk_id := 2, creator_id := 2, owner_id := none
    is_anonymous := false, creator := some bob, owner := none }

/-- C6: rendering an anonymous Feedback omits the creator relation and
computes creator_name = "Anonymous" for every viewer, the creator
included; a non-anonymous Feedback's creator_name is the creator's full
name when present (truthy), else the username when truthy, else
"Unknown" (creator relation absent or without usable names). -/
theorem C6_anonymous_creator_masking (f : FeedbackView) (viewer : User) :
    (f.is_anonymous = true →
      (render f viewer).creator = none ∧
      (render f viewer).creator_name = "Anonymous")
    ∧ (f.is_anonymous = false →
      ((∀ c fn, f.creator = some c → c.full_name = some fn → fn ≠ "" →
        (render f viewer).creator_name = fn)
      ∧ (∀ c, f.creator = some c → optStrTruthy c.full_name = false →
          c.username ≠ "" → (render f viewer).creator_name = c.username)
      ∧ (∀ c, f.creator = some c → optStrTruthy c.full_name = false →
          strTruthy c.username = false →
          (render f viewer).creator_name = "Unknown")
      ∧ (f.creator = none → (render f viewer).creator_name = "Unknown"))) := by
  constructor
  · intro hanon
    unfold render FeedbackView.mask_anonymous_creator FeedbackView.creator_name
    simp [hanon]
  · intro hanon
    have hrend : render f viewer = f := by
      unfold render FeedbackView.mask_anonymous_creator
      simp [hanon]
    rw [hrend]
    unfold FeedbackView.creator_name
    refine ⟨fun c fn hc hfn hne => ?_, fun c hc hfn hun => ?_,
      fun c hc hfn hun => ?_, fun hc => ?_⟩
    · simp [hanon, hc, hfn, optStrTruthy, strTruthy, hne]
    · simp [hanon, hc, hfn, strTruthy, hun]
    · simp [hanon, hc, hfn, hun]
    · simp [hanon, hc]

/-- C6 witness: the anonymous view rendered for alice, its own creator,
hides the creator relation and reports "Anonymous". -/
theorem C6_witness :
    (render anonView alice).creator = none ∧
    (render anonView alice).creator_name = "Anonymous" :=
  (C6_anonymous_creator_masking anonView alice).1 rfl

/-- C9 counterexample: Feedback.owner_name returns None (not the string
"Unknown") when the owner relation is absent. -/
theorem C9_counterexample :
    ownerlessView.owner = none ∧
    FeedbackView.owner_name ownerlessView = none ∧
    FeedbackView.owner_name ownerlessView ≠ some "Unknown" := by
  refine ⟨rfl, rfl, by decide⟩

/-- C9 amended: for a rendered Feedback, owner_name is the owner's full
name when present (truthy), else the username when truthy, else None
(JSON null) — the "Unknown" default belongs to the Walk schema's
owner_name, not Feedback's. -/
theorem C9_amended (f : FeedbackView) :
    (∀ o fn, f.owner = some o → o.full_name = some fn → fn ≠ "" →
      f.owner_name = some fn)
    ∧ (∀ o, f.owner = some o → optStrTruthy o.full_name = false →
        o.username ≠ "" → f.owner_name = some o.username)
    ∧ (∀ o, f.owner = some o → optStrTruthy o.full_name = false →
        strTruthy o.username = false → f.owner_name = none)
    ∧ (f.owner = none → f.owner_name = none)
    ∧ walkOwnerName none = "Unknown" := by
  unfold FeedbackView.owner_name
  refine ⟨fun o fn ho hfn hne => ?_, fun o ho hfn hun => ?_,
    fun o ho hfn hun => ?_, fun ho => ?_, rfl⟩
  · simp [ho, hfn, optStrTruthy, strTruthy, hne]
  · simp [ho, hfn, strTruthy, hun]
  · simp [ho, hfn, hun]
  · simp [ho]

/-- C9 amended witness: the ownerless view's owner_name is None while
the Walk schema's default is "Unknown". -/
theorem C9_amended_witness :
    FeedbackView.owner_name ownerlessView = none ∧
    walkOwnerName none = "Unknown" :=
  ⟨(C9_amended ownerlessView).2.2.2.1 rfl, (C9_amended ownerlessView).2.2.2.2⟩

/-- C7: a Walk or Feedback Update whose payload carries an owner_id that
resolves to no existing principal is rejected whole with the
invalid-reference fault ("User with owner_id ... does not exist."): the
reference check precedes the setattr loop, so no field of the entity is
mutated, fields that were individually valid included (the handlers
return no modified store on any error). -/
theorem C7_invalid_owner_reference_atomic (db : DB) (cu : User)
    (wid fid oidW oidF : Nat) (wupd : WalkUpdate) (fupd : FeedbackUpdate)
    (w : Walk) (f : Feedback)
    (hw : db.findWalk wid = some w)
    (hwauth : w.creator_id = cu.id ∨ w.owner_id = cu.id ∨
      cu.role = UserRole.developer)
    (hwoid : wupd.owner_id = some oidW)
    (hwmiss : db.findUser oidW = none)
    (hf : db.findFeedback fid = some f)
    (hfnarch : f.is_archived = false)
    (hfauth : f.owner_id = some cu.id ∨ cu.role = UserRole.manager ∨
      cu.role = UserRole.executive ∨ cu.role = UserRole.developer)
    (hfoid : fupd.owner_id = some oidF)
    (hfmiss : db.findUser oidF = none) :
    (update_walk db cu wid wupd = .error (.badRequest
      (toString "User with owner_id " ++ toString oidW ++
        toString " does not exist.")))
    ∧ (update_feedback db cu fid fupd = .error (.badRequest
      (toString "User with owner_id " ++ toString oidF ++
        toString " does not exist."))) := by
  constructor
  · unfold update_walk
    rw [hw]
    simp only
    have hg : (w.creator_id == cu.id || w.owner_id == cu.id ||
        cu.role == UserRole.developer) = true := by
      rcases hwauth with h | h | h <;> simp [h]
    simp only [hg, Bool.not_true, Bool.false_eq_true, if_false, hwoid]
    simp [hwmiss]
  · unfold update_feedback
    rw [hf]
    simp only [hfnarch, Bool.false_eq_true, if_false]
    have hg : (f.owner_id == some cu.id ||
        (cu.role == UserRole.manager || cu.role == UserRole.executive ||
          cu.role == UserRole.developer)) = true := by
      rcases hfauth with h | h | h | h <;> simp [h]
    simp only [hg, Bool.not_true, Bool.false_eq_true, if_false, hfoid]
    simp [hfmiss]

/-- C7 witness: alice sends owner_id 99 (no such principal) together
with otherwise-valid fields to her live walk and her live feedback; both
updates are rejected whole with the invalid-reference fault. -/
theorem C7_witness :
    (update_walk fixtureDB alice 2
      { whiteboard := some "valid text", owner_id := some 99 } =
      .error (.badRequest (toString "User with owner_id " ++ toString 99 ++
        toString " does not exist.")))
    ∧ (update_feedback fixtureDB alice 2
      { title := some "valid title", owner_id := some 99 } =
      .error (.badRequest (toString "User with owner_id " ++ toString 99 ++
        toString " does not exist."))) :=
  C7_invalid_owner_reference_atomic fixtureDB alice 2 2 99 99
    { whiteboard := some "valid text", owner_id := some 99 }
    { title := some "valid title", owner_id := some 99 }
    liveWalk liveFeedback (by rfl) (Or.inl rfl) rfl (by rfl)
    (by rfl) (by rfl) (Or.inl rfl) rfl (by rfl)

/-- Helper for C8: the setattr loop of update_feedback never touches the
tags relation, whatever the request carries in tag_ids. -/
theorem applyFeedbackUpdate_tag_ids (f : Feedback) (upd : FeedbackUpdate) :
    (applyFeedbackUpdate f upd).tag_ids = f.tag_ids := by
  unfold applyFeedbackUpdate
  cases upd.title <;> cases upd.description <;> cases upd.status <;>
    cases upd.owner_id <;> cases upd.follow_up_note <;>
    cases upd.resolution_note <;> rfl

/-- Helper for C8: with unique tag-row ids, a requested id matched by no
tag row makes the fetched-tag count fall short of the count of distinct
requested ids, so the create-time validation comparison trips. -/
theorem filter_tags_length_lt (tags : List Tag) (ids : List Nat) (tid : Nat)
    (hnodup : (tags.map (fun t => t.id)).Nodup)
    (htid : tid ∈ ids) (hmiss : ∀ t ∈ tags, t.id ≠ tid) :
    (tags.filter (fun t => ids.contains t.id)).length < ids.dedup.length := by
  have hsub : (tags.filter (fun t => ids.contains t.id)).map (fun t => t.id)
      ⊆ ids.dedup.erase tid := by
    intro x hx
    simp only [List.mem_map, List.mem_filter] at hx
    obtain ⟨t, ⟨htmem, hcont⟩, rfl⟩ := hx
    have hxin : t.id ∈ ids := by simpa using hcont
    have hxne : t.id ≠ tid := hmiss t htmem
    rw [List.mem_erase_of_ne hxne]
    exact List.mem_dedup.mpr hxin
  have hnd : ((tags.filter (fun t => ids.contains t.id)).map
      (fun t => t.id)).Nodup :=
    List.Nodup.sublist (List.Sublist.map _ (List.filter_sublist _)) hnodup
  have hlen := (List.subperm_of_subset hnd hsub).length_le
  rw [List.length_map] at hlen
  have htid2 : tid ∈ ids.dedup := List.mem_dedup.mpr htid
  have herase := List.length_erase_add_one htid2
  omega

/-- C8 counterexample: at feedback-update time a nonexistent tag id is
NOT rejected: the store holds no tags at all, yet alice's update of her
live feedback carrying tag_ids = [999] succeeds, with the feedback's
tags silently left unchanged. -/
theorem C8_counterexample :
    fixtureDB.tags = [] ∧
    update_feedback fixtureDB alice 2 { tag_ids := some [999] } =
      .ok (liveFeedback, fixtureDB) := by
  constructor
  · rfl
  · rfl

/-- C8 amended: referencing a nonexistent tag id at feedback-create time
is rejected as a validation fault, but at feedback-update time tag ids
are not validated: FeedbackUpdate.tag_ids lands in an unmapped attribute,
the update succeeds and the feedback's tags are unchanged. -/
theorem C8_amended (db : DB) (cu : User) (fd : FeedbackCreate)
    (now fid tid : Nat) (upd : FeedbackUpdate) (f : Feedback)
    (hnodup : (db.tags.map (fun t => t.id)).Nodup)
    (htid : tid ∈ fd.tags_id)
    (hmiss : ∀ t ∈ db.tags, t.id ≠ tid)
    (hf : db.findFeedback fid = some f)
    (hnarch : f.is_archived = false)
    (hauth : f.owner_id = some cu.id ∨ cu.role = UserRole.manager ∨
      cu.role = UserRole.executive ∨ cu.role = UserRole.developer)
    (href : ∀ oid, upd.owner_id = some oid → (db.findUser oid).isSome = true) :
    (∀ w, db.walks.find?
        (fun x => x.id == fd.walk_id && x.is_archived == false) = some w →
      create_new_feedback db cu fd now =
        .error (.badRequest "One or more provided tag IDs are invalid."))
    ∧ (update_feedback db cu fid upd =
        .ok (applyFeedbackUpdate f upd,
          db.commitFeedback (applyFeedbackUpdate f upd))
       ∧ (applyFeedbackUpdate f upd).tag_ids = f.tag_ids) := by
  constructor
  · intro w hw
    unfold create_new_feedback
    rw [hw]
    simp only
    have hne : fd.tags_id.isEmpty = false := by
      cases hids : fd.tags_id with
      | nil => rw [hids] at htid; cases htid
      | cons a as => rfl
    have hlt := filter_tags_length_lt db.tags fd.tags_id tid hnodup htid hmiss
    have hbne : ((db.tags.filter
        (fun t => fd.tags_id.contains t.id)).length
          != fd.tags_id.dedup.length) = true := by
      simp only [bne_iff_ne, ne_eq]
      omega
    simp only [hne, Bool.false_eq_true, if_false, hbne, if_true]
  · have hupd : update_feedback db cu fid upd =
        .ok (applyFeedbackUpdate f upd,
          db.commitFeedback (applyFeedbackUpdate f upd)) := by
      unfold update_feedback
      rw [hf]
      simp only [hnarch, Bool.false_eq_true, if_false]
      have hg : (f.owner_id == some cu.id ||
          (cu.role == UserRole.manager || cu.role == UserRole.executive ||
            cu.role == UserRole.developer)) = true := by
        rcases hauth with h | h | h | h <;> simp [h]
      simp only [hg, Bool.not_true, Bool.false_eq_true, if_false]
      cases hoid : upd.owner_id with
      | none => simp
      | some oid =>
        have hsome := href oid hoid
        simp [Option.isNone_iff_eq_none, Option.isSome_iff_ne_none.mp hsome]
    exact ⟨hupd, applyFeedbackUpdate_tag_ids f upd⟩

/-- C8 amended witness: with an empty tag table, creating feedback on
the live walk with tags_id = [999] is rejected, while updating the live
feedback with tag_ids = [999] succeeds with tags unchanged. -/
theorem C8_amended_witness :
    (create_new_feedback fixtureDB alice
      { title := "x", description := "y", walk_id := 2, tags_id := [999] } 7 =
      .error (.badRequest "One or more provided tag IDs are invalid."))
    ∧ (update_feedback fixtureDB alice 2 { tag_ids := some [999] } =
        .ok (applyFeedbackUpdate liveFeedback { tag_ids := some [999] },
          fixtureDB.commitFeedback
            (applyFeedbackUpdate liveFeedback { tag_ids := some [999] }))
       ∧ (applyFeedbackUpdate liveFeedback
            { tag_ids := some [999] }).tag_ids = liveFeedback.tag_ids) :=
  by
  have h := C8_amended fixtureDB alice
    { title := "x", description := "y", walk_id := 2, tags_id := [999] }
    7 2 999 { tag_ids := some [999] } liveFeedback
    (by decide) (by decide) (by intro t ht; cases ht) (by rfl) (by rfl)
    (Or.inl rfl) (by intro oid hoid; cases hoid)
  exact ⟨h.1 liveWalk (by rfl), h.2⟩

/-- C10: archiving a Walk mutates only that walk's is_archived flag: on
success the feedback table (hence every Feedback with walk_id = W.id,
its is_archived included), the user, comment and tag tables are returned
unchanged, and the walk table is either untouched (idempotent case) or
rewritten only at the target walk with is_archived set to true. -/
theorem C10_archive_walk_frame (db : DB) (cu : User) (wid : Nat)
    (r : StatusResponse) (db' : DB)
    (h : archive_walk db cu wid = .ok (r, db')) :
    db'.feedbacks = db.feedbacks ∧ db'.users = db.users ∧
    db'.comments = db.comments ∧ db'.tags = db.tags ∧
    (db'.walks = db.walks ∨
      ∃ w, db.findWalk wid = some w ∧
        db'.walks = db.walks.map
          (fun x => if x.id == w.id then { w with is_archived := true }
            else x)) := by
  unfold archive_walk at h
  cases hfind : db.findWalk wid with
  | none => rw [hfind] at h; cases h
  | some walk =>
    rw [hfind] at h
    simp only at h
    split at h
    · cases h
    · split at h
      · simp only [Except.ok.injEq, Prod.mk.injEq] at h
        obtain ⟨hr, hdb⟩ := h
        subst hdb
        exact ⟨rfl, rfl, rfl, rfl, Or.inl rfl⟩
      · simp only [Except.ok.injEq, Prod.mk.injEq] at h
        obtain ⟨hr, hdb⟩ := h
        subst hdb
        exact ⟨rfl, rfl, rfl, rfl, Or.inr ⟨walk, rfl, rfl⟩⟩

/-- C10 witness: alice archives the live walk; the feedback table of the
resulting store equals the original one, so the feedback rows pointing
at that walk are untouched. -/
theorem C10_witness :
    (fixtureDB.commitWalk { liveWalk with is_archived := true }).feedbacks =
      fixtureDB.feedbacks :=
  (C10_archive_walk_frame fixtureDB alice 2
    { status := "success", message := some "Walk archived successfully" }
    (fixtureDB.commitWalk { liveWalk with is_archived := true })
    (by rfl)).1

end OpenForum
